import Mathlib

/-!
Verification of the waggle-dance annotation matcher
(annotation_matcher.py of BioroboticsLab/bb_wdd_eval).

The pipeline is embedded shallowly:
* machine timestamps, coordinates and frame rates are rationals,
* pandas data frames become lists of records,
* video resources become lists of frames (a frame is a pixel grid),
* fallible Python code (exceptions) returns Except String.

Definitions follow the Python source function by function; the
CoordinateTransformer lives in a module that is not part of the sources,
so it is modelled from the specification (see its doc comment).
-/

/-- Camera resolution constant HD_CAM_RESOLUTION = (3520, 4608) from the source. -/
def HD_CAM_RESOLUTION : ℚ × ℚ := (3520, 4608)

/-- A video frame: a grid of pixel values.  Frame comparison in the source is
exact elementwise equality of the pixel arrays. -/
abbrev Frame := List (List ℕ)

/-- One automatically detected waggle-run candidate (one WDD metadata record).
The begin timestamp is kept as a rational number of seconds. -/
structure Candidate where
  waggle_id : String
  timestamp_begin : ℚ
  roi_center : ℚ × ℚ
deriving DecidableEq

/-- One row of the label/correction table (data.csv), keyed by waggle id.
Corrected fields are nullable, hence Option. -/
structure LabelRow where
  waggle_id : String
  category_label : String
  corrected_category_label : Option String
  dance_type : String
  corrected_dance_type : Option String
deriving DecidableEq

/-- One manually annotated waggle run (one spreadsheet row), restricted to the
fields the matching pipeline reads. -/
structure ManualRow where
  waggle_start_frames : ℚ
  waggle_start_positions_x : ℚ
  waggle_start_positions_y : ℚ
deriving DecidableEq

/-- One row of a marker table df_markers.csv: a timestamp and a 2D point. -/
structure MarkerRow where
  timestamp : ℚ
  x : ℚ
  y : ℚ
deriving DecidableEq

/-- Python function truncate_higher_precision_timestamp works on the string by
splitting at the dot character; this helper is str.split restricted to a
one-character separator, returning the first section and the remaining
sections. -/
def splitOnChar (sep : Char) : List Char → List Char × List (List Char)
  | [] => ([], [])
  | c :: cs =>
    let r := splitOnChar sep cs
    if c = sep then ([], r.1 :: r.2) else (c :: r.1, r.2)

/-- Python truncate_higher_precision_timestamp: if the string holds two or more
fractional-second sections (two or more dots), keep only the first two
dot-separated sections and append a Z; otherwise return it unchanged. -/
def truncate_higher_precision_timestamp (timestamp : String) : String :=
  let precision_section_count := timestamp.data.count '.'
  if 2 ≤ precision_section_count then
    let sections := splitOnChar '.' timestamp.data
    match sections.2 with
    | s1 :: _ => String.mk (sections.1 ++ '.' :: (s1 ++ ['Z']))
    | [] => timestamp
  else timestamp

/-- Python filtered_by_timestamp: keep the candidates whose begin timestamp
lies in the closed window around video_starttime + start_frame / video_fps
of radius delta.  Both comparisons in the source are non-strict. -/
def filtered_by_timestamp (candidates : List Candidate) (video_starttime : ℚ)
    (delta : ℚ) (start_frame : ℚ) (video_fps : ℚ) : List Candidate :=
  let time_elapsed_until_waggle := start_frame / video_fps
  let waggle_timestamp := video_starttime + time_elapsed_until_waggle
  let start_time := waggle_timestamp - delta
  let end_time := waggle_timestamp + delta
  candidates.filter fun c =>
    decide (start_time ≤ c.timestamp_begin) && decide (c.timestamp_begin ≤ end_time)

/-- Python is_tagged: the corrected category label overrides the original
category label; the row counts as tagged when the authoritative value is
the string tagged. -/
def is_tagged (csv_row : LabelRow) : Bool :=
  (decide (csv_row.category_label = "tagged") && csv_row.corrected_category_label.isNone)
  || (!csv_row.corrected_category_label.isNone
      && decide (csv_row.corrected_category_label = some "tagged"))

/-- Python is_waggle: the corrected dance type overrides the original dance
type; the row counts as a waggle when the authoritative value is the string
waggle. -/
def is_waggle (csv_row : LabelRow) : Bool :=
  (decide (csv_row.dance_type = "waggle") && csv_row.corrected_dance_type.isNone)
  || (!csv_row.corrected_dance_type.isNone
      && decide (csv_row.corrected_dance_type = some "waggle"))

/-- Specification-side single override predicate: if a correction value is
present it is authoritative, otherwise the original value is.  Used to state
claim C2 against is_tagged and is_waggle. -/
def override_rule (original : String) (corrected : Option String) (expected : String) : Bool :=
  match corrected with
  | some v => decide (v = expected)
  | none => decide (original = expected)

/-- Python unrotate: reverses the 90-degree rotation applied by the manual
annotation tool, mapping (rx, ry) to (ry, HD_CAM_RESOLUTION.2 - rx). -/
def unrotate (rotated_coordinates : ℚ × ℚ) : ℚ × ℚ :=
  let rotated_x := rotated_coordinates.1
  let rotated_y := rotated_coordinates.2
  (rotated_y, HD_CAM_RESOLUTION.2 - rotated_x)

/-- Modelled from the spec: the forward 90-degree rotation
(x, y) to (FRAME_HEIGHT - y, x) that the annotation tool applied; the source
repository only contains its inverse, unrotate.  Needed to state claim C8. -/
def rotate_forward (coordinates : ℚ × ℚ) : ℚ × ℚ :=
  (HD_CAM_RESOLUTION.2 - coordinates.2, coordinates.1)

/-- Python fix_padding_error: adds the 125 pixel offset compensating the
double padding of roi_center in the WDD output. -/
def fix_padding_error (coordinates : ℚ × ℚ) : ℚ × ℚ :=
  (coordinates.1 + 125, coordinates.2 + 125)

/-- Python is_adjacent: per-axis comparison of the absolute coordinate
differences against the tolerance (Chebyshev-style, not Euclidean). -/
def is_adjacent (coordinates1 coordinates2 : ℚ × ℚ) (coordinate_tolerance : ℚ) : Bool :=
  decide (|coordinates1.1 - coordinates2.1| ≤ coordinate_tolerance)
  && decide (|coordinates1.2 - coordinates2.2| ≤ coordinate_tolerance)

/-- Python get_starting_frame: first frame of a video, or an error when the
video has no frame. -/
def get_starting_frame (video : List Frame) : Except String Frame :=
  match video with
  | [] => Except.error "No frame in video"
  | f :: _ => Except.ok f

/-- The frame scanning loop of Python get_first_matching_frame_index: walk the
remaining frames keeping the running index, return the index of the first
frame equal to the target, or an error at the end of the video. -/
def find_matching_frame (target : Frame) : List Frame → ℕ → Except String ℕ
  | [], _ => Except.error "Unable to find matching frame"
  | f :: fs, frame_index =>
    if f = target then Except.ok frame_index
    else find_matching_frame target fs (frame_index + 1)

/-- Python get_first_matching_frame_index: index of the first frame of the
original video that equals the first frame of the cut video. -/
def get_first_matching_frame_index (original_video cut_video : List Frame) :
    Except String ℕ :=
  match get_starting_frame cut_video with
  | Except.error e => Except.error e
  | Except.ok target => find_matching_frame target original_video 0

/-- Python get_marker_coordinates_by_timestamp: among the sorted distinct
marker timestamps, the loop keeps the last one that is at most the detection
timestamp; when none qualifies the function returns none, otherwise the
(x, y) pairs of the rows carrying that timestamp, in table order. -/
def get_marker_coordinates_by_timestamp (detection_timestamp : ℚ)
    (df_markers : List MarkerRow) : Option (List (ℚ × ℚ)) :=
  let marker_timestamps :=
    ((df_markers.map fun r => r.timestamp).dedup).insertionSort (· ≤ ·)
  let timestamp_to_show := marker_timestamps.foldl
    (fun acc ts => if ts ≤ detection_timestamp then some ts else acc) none
  match timestamp_to_show with
  | none => none
  | some ts =>
    some (((df_markers.filter fun r => decide (r.timestamp = ts))).map fun r => (r.x, r.y))

/-- A fitted planar transform x maps to (a x + b y + c, d x + e y + f). -/
structure CoordinateTransformer where
  a : ℚ
  b : ℚ
  c : ℚ
  d : ℚ
  e : ℚ
  f : ℚ
deriving DecidableEq

/-- Determinant of a 3 by 3 matrix given row by row. -/
def det3 (m11 m12 m13 m21 m22 m23 m31 m32 m33 : ℚ) : ℚ :=
  m11 * (m22 * m33 - m23 * m32)
  - m12 * (m21 * m33 - m23 * m31)
  + m13 * (m21 * m32 - m22 * m31)

/-- Modelled from the spec: the least-squares affine fit of the coordinate
transform (file coordinate_transformer.py is not among the sources).  The
normal equations of the affine least-squares problem decouple into two linear
3 by 3 systems sharing the Gram matrix of the source points; they are solved
by Cramer's rule.  A zero Gram determinant is exactly the degenerate
(collinear or coincident markers) configuration. -/
def fitAffine (src dst : List (ℚ × ℚ)) : Option CoordinateTransformer :=
  let ps := src.zip dst
  let sxx := (ps.map fun p => p.1.1 * p.1.1).sum
  let sxy := (ps.map fun p => p.1.1 * p.1.2).sum
  let syy := (ps.map fun p => p.1.2 * p.1.2).sum
  let sx := (ps.map fun p => p.1.1).sum
  let sy := (ps.map fun p => p.1.2).sum
  let n : ℚ := src.length
  let det := det3 sxx sxy sx sxy syy sy sx sy n
  if det = 0 then none
  else
    let ux := (ps.map fun p => p.1.1 * p.2.1).sum
    let uy := (ps.map fun p => p.1.2 * p.2.1).sum
    let us := (ps.map fun p => p.2.1).sum
    let vx := (ps.map fun p => p.1.1 * p.2.2).sum
    let vy := (ps.map fun p => p.1.2 * p.2.2).sum
    let vs := (ps.map fun p => p.2.2).sum
    some
      { a := det3 ux sxy sx uy syy sy us sy n / det
        b := det3 sxx ux sx sxy uy sy sx us n / det
        c := det3 sxx sxy ux sxy syy uy sx sy us / det
        d := det3 vx sxy sx vy syy sy vs sy n / det
        e := det3 sxx vx sx sxy vy sy sx vs n / det
        f := det3 sxx sxy vx sxy syy vy sx sy vs / det }

/-- Modelled from the spec: construction of the CoordinateTransformer (its
module is not among the sources).  Construction fails with InsufficientMarkers
when fewer than the minimal three marker pairs are supplied (in particular
when a marker lookup produced none), with MarkerCountMismatch when the two
marker lists differ in length, and with DegenerateMarkers when the marker
configuration is degenerate. -/
def CoordinateTransformer.make (src_markers dst_markers : Option (List (ℚ × ℚ))) :
    Except String CoordinateTransformer :=
  match src_markers, dst_markers with
  | some src, some dst =>
    if src.length = dst.length then
      if src.length < 3 then Except.error "InsufficientMarkers"
      else
        match fitAffine src dst with
        | none => Except.error "DegenerateMarkers"
        | some t => Except.ok t
    else Except.error "MarkerCountMismatch"
  | _, _ => Except.error "InsufficientMarkers"

/-- Application of the fitted transform to a query point. -/
def CoordinateTransformer.transform_coordinates (t : CoordinateTransformer)
    (x y : ℚ) : ℚ × ℚ :=
  (t.a * x + t.b * y + t.c, t.d * x + t.e * y + t.f)

/-- Python is_matching_coordinates: look up the marker sets valid at the
candidate timestamp, build the coordinate transformer from them (errors of
the construction propagate: the function has no handler), optionally unrotate
the manual start position before transforming it, optionally fix the padding
of the roi center, and compare with is_adjacent. -/
def is_matching_coordinates (automatically_annotated_data : Candidate)
    (manually_annotated_data : ManualRow)
    (df_markers_hd df_markers_wdd : List MarkerRow)
    (coordinate_tolerance : ℚ) (fix_padding_flag : Bool) (undo_rotation : Bool) :
    Except String Bool :=
  let wdd_markers := get_marker_coordinates_by_timestamp
    automatically_annotated_data.timestamp_begin df_markers_wdd
  let hd_markers := get_marker_coordinates_by_timestamp
    automatically_annotated_data.timestamp_begin df_markers_hd
  match CoordinateTransformer.make hd_markers wdd_markers with
  | Except.error e => Except.error e
  | Except.ok converter =>
    let p0 := (manually_annotated_data.waggle_start_positions_x,
               manually_annotated_data.waggle_start_positions_y)
    let p := if undo_rotation then unrotate p0 else p0
    let q := converter.transform_coordinates p.1 p.2
    let rc0 := automatically_annotated_data.roi_center
    let rc := if fix_padding_flag then fix_padding_error rc0 else rc0
    Except.ok (is_adjacent q rc coordinate_tolerance)

/-- The label-check loop of main: for each candidate select the label rows
with its waggle id; the assertion that at most one row matches becomes a
fatal error when violated; with no row the candidate is silently dropped;
with one row the candidate is kept exactly when it is tagged and a waggle. -/
def label_filter (csv_df : List LabelRow) : List Candidate → Except String (List Candidate)
  | [] => Except.ok []
  | candidate :: rest =>
    let csv_row := csv_df.filter fun r => decide (r.waggle_id = candidate.waggle_id)
    if csv_row.length ≤ 1 then
      match csv_row with
      | [] => label_filter csv_df rest
      | r :: _ =>
        if is_tagged r && is_waggle r then
          match label_filter csv_df rest with
          | Except.error e => Except.error e
          | Except.ok kept => Except.ok (candidate :: kept)
        else label_filter csv_df rest
    else Except.error "AssertionError"

/-- The coordinate-check list comprehension of main.  Note that main passes
fix_padding_flag but not undo_rotation to is_matching_coordinates, so the
undo_rotation parameter of that function stays at its default False here;
an error raised for one candidate aborts the whole comprehension. -/
def coordinate_filter_main (coordinate_tolerance : ℚ) (fix_padding_flag : Bool)
    (manually_annotated_row : ManualRow)
    (df_markers_hd df_markers_wdd : List MarkerRow) :
    List Candidate → Except String (List Candidate)
  | [] => Except.ok []
  | candidate :: rest =>
    match is_matching_coordinates candidate manually_annotated_row
        df_markers_hd df_markers_wdd coordinate_tolerance fix_padding_flag false with
    | Except.error e => Except.error e
    | Except.ok b =>
      match coordinate_filter_main coordinate_tolerance fix_padding_flag
          manually_annotated_row df_markers_hd df_markers_wdd rest with
      | Except.error e => Except.error e
      | Except.ok kept => Except.ok (if b then candidate :: kept else kept)

/-- The per-event body of the loop of main: frame synchronisation (whose
exception is caught: the event is skipped and yields no record), the temporal
filter (an empty result also skips the event), the label check (its assertion
error is not caught) and the coordinate check (its errors are not caught).
The undo_rotation argument mirrors the local variable of main, which reads
it from the command line but never forwards it. -/
def process_event (time_tolerance coordinate_tolerance : ℚ)
    (fix_padding_flag undo_rotation : Bool)
    (original_video cut_video : List Frame) (video_starttime video_fps : ℚ)
    (all_candidates : List Candidate) (csv_df : List LabelRow)
    (df_markers_hd df_markers_wdd : List MarkerRow)
    (manually_annotated_row : ManualRow) : Except String (Option (List Candidate)) :=
  match get_first_matching_frame_index original_video cut_video with
  | Except.error _ => Except.ok none
  | Except.ok frame_offset =>
    let candidates_after_timestamp_check := filtered_by_timestamp all_candidates
      video_starttime time_tolerance
      ((frame_offset : ℚ) + manually_annotated_row.waggle_start_frames) video_fps
    if candidates_after_timestamp_check.isEmpty then Except.ok none
    else
      match label_filter csv_df candidates_after_timestamp_check with
      | Except.error e => Except.error e
      | Except.ok candidates_after_tagged_waggle_check =>
        match coordinate_filter_main coordinate_tolerance fix_padding_flag
            manually_annotated_row df_markers_hd df_markers_wdd
            candidates_after_tagged_waggle_check with
        | Except.error e => Except.error e
        | Except.ok candidates_after_coordinate_check =>
          Except.ok (some candidates_after_coordinate_check)

/-- The loop of main over the manually annotated rows of one video: a skipped
event contributes none, a completed event contributes its surviving
candidates, and an uncaught error aborts the remaining events. -/
def run_events (time_tolerance coordinate_tolerance : ℚ)
    (fix_padding_flag undo_rotation : Bool)
    (original_video cut_video : List Frame) (video_starttime video_fps : ℚ)
    (all_candidates : List Candidate) (csv_df : List LabelRow)
    (df_markers_hd df_markers_wdd : List MarkerRow) :
    List ManualRow → Except String (List (Option (List Candidate)))
  | [] => Except.ok []
  | row :: rows =>
    match process_event time_tolerance coordinate_tolerance fix_padding_flag
        undo_rotation original_video cut_video video_starttime video_fps
        all_candidates csv_df df_markers_hd df_markers_wdd row with
    | Except.error e => Except.error e
    | Except.ok r =>
      match run_events time_tolerance coordinate_tolerance fix_padding_flag
          undo_rotation original_video cut_video video_starttime video_fps
          all_candidates csv_df df_markers_hd df_markers_wdd rows with
      | Except.error e => Except.error e
      | Except.ok rs => Except.ok (r :: rs)

/-! Claim theorems. -/

/-- Claim C1: for every candidate set, reference start time T0, frame-sync
offset o, manual start-frame index f, frame rate r and tolerance d, the
temporal filter (invoked by main with start frame o + f) returns exactly the
candidates whose begin timestamp t satisfies
T0 + (o + f) / r - d <= t <= T0 + (o + f) / r + d, both bounds inclusive. -/
theorem temporal_filter_window (candidates : List Candidate) (T0 o f r d : ℚ)
    (c : Candidate) :
    c ∈ filtered_by_timestamp candidates T0 d (o + f) r ↔
      c ∈ candidates ∧ T0 + (o + f) / r - d ≤ c.timestamp_begin
        ∧ c.timestamp_begin ≤ T0 + (o + f) / r + d := by
  simp [filtered_by_timestamp, List.mem_filter, and_assoc]

/-- Claim C2: a label row passes the tagged-and-waggle check exactly when both
attributes match their expected values under the override rule (the corrected
value is authoritative when non-null, the original value otherwise); the
label filter keeps a candidate with a unique matching row accordingly, and the
three concrete label combinations of the claim behave as stated. -/
theorem label_filter_override_rule :
    (∀ r : LabelRow, (is_tagged r && is_waggle r)
        = (override_rule r.category_label r.corrected_category_label "tagged"
           && override_rule r.dance_type r.corrected_dance_type "waggle"))
    ∧ (∀ (r : LabelRow) (c : Candidate), r.waggle_id = c.waggle_id →
        label_filter [r] [c]
          = Except.ok (if is_tagged r && is_waggle r then [c] else []))
    ∧ is_tagged ⟨"id", "tagged", none, "waggle", none⟩ = true
    ∧ is_tagged ⟨"id", "untagged", some "tagged", "waggle", none⟩ = true
    ∧ is_tagged ⟨"id", "tagged", some "untagged", "waggle", none⟩ = false := by
  refine ⟨?_, ?_, by decide, by decide, by decide⟩
  · rintro ⟨id, cat, corr, dt, cdt⟩
    cases corr <;> cases cdt <;> simp [is_tagged, is_waggle, override_rule]
  · intro r c h
    have hfilter : ([r].filter fun row => decide (row.waggle_id = c.waggle_id)) = [r] := by
      simp [List.filter, h]
    by_cases htw : (is_tagged r && is_waggle r) = true <;>
      simp [label_filter, hfilter, htw]

/-- Claim C2 witness: a concrete tagged waggle row whose id matches the
candidate id is kept by the label filter. -/
theorem label_filter_override_rule_witness :
    label_filter [⟨"w1", "tagged", none, "waggle", none⟩] [⟨"w1", 17, (3, 4)⟩]
      = Except.ok (if is_tagged ⟨"w1", "tagged", none, "waggle", none⟩
            && is_waggle ⟨"w1", "tagged", none, "waggle", none⟩
          then [⟨"w1", 17, (3, 4)⟩] else []) :=
  label_filter_override_rule.2.1 ⟨"w1", "tagged", none, "waggle", none⟩ ⟨"w1", 17, (3, 4)⟩ rfl

/-- Claim C3: the spatial adjacency test accepts two points exactly when both
per-axis absolute differences are at most the tolerance (Chebyshev, not
Euclidean); points differing by exactly (tol, tol) are adjacent for a
nonnegative tolerance, and points differing by (tol + 1, 0) never are. -/
theorem is_adjacent_chebyshev :
    (∀ x1 y1 x2 y2 tol : ℚ, is_adjacent (x1, y1) (x2, y2) tol = true ↔
      |x1 - x2| ≤ tol ∧ |y1 - y2| ≤ tol)
    ∧ (∀ x y tol : ℚ, 0 ≤ tol → is_adjacent (x, y) (x + tol, y + tol) tol = true)
    ∧ (∀ x y tol : ℚ, is_adjacent (x, y) (x + tol + 1, y) tol = false) := by
  refine ⟨?_, ?_, ?_⟩
  · intro x1 y1 x2 y2 tol
    simp [is_adjacent]
  · intro x y tol h
    simp [is_adjacent, sub_add_cancel_left, abs_neg, abs_of_nonneg h]
  · intro x y tol
    have habs : ¬ |x - (x + tol + 1)| ≤ tol := by
      intro hle
      rw [show x - (x + tol + 1) = -(tol + 1) by ring, abs_neg] at hle
      have h1 : tol + 1 ≤ |tol + 1| := le_abs_self _
      linarith
    simp only [is_adjacent]
    rw [decide_eq_false habs, Bool.false_and]

/-- Claim C3 witness: the boundary point at distance (5, 5) is adjacent under
tolerance 5. -/
theorem is_adjacent_chebyshev_witness :
    is_adjacent (0, 0) (0 + 5, 0 + 5) 5 = true :=
  is_adjacent_chebyshev.2.1 0 0 5 (by norm_num)

/-- Claim C8: applying unrotate twice is not the identity (witnessed at the
origin), while the forward 90-degree rotation of the annotation tool applied
after one unrotate reconstructs every point. -/
theorem unrotate_forward_rotation :
    (∃ p : ℚ × ℚ, ¬ unrotate (unrotate p) = p)
    ∧ ∀ x y : ℚ, rotate_forward (unrotate (x, y)) = (x, y) := by
  constructor
  · refine ⟨(0, 0), ?_⟩
    simp [unrotate, HD_CAM_RESOLUTION, Prod.ext_iff]
  · intro x y
    simp [unrotate, rotate_forward, HD_CAM_RESOLUTION, Prod.ext_iff]

/-- Helper for claim C4: the scanning loop returns index j exactly when the
frame at offset j - n is the first occurrence of the target in the remaining
frames. -/
theorem find_matching_frame_ok_iff (target : Frame) (l : List Frame) (n j : ℕ) :
    find_matching_frame target l n = Except.ok j ↔
      ∃ i, l[i]? = some target ∧ (∀ k < i, l[k]? ≠ some target) ∧ j = n + i := by
  induction l generalizing n with
  | nil => simp [find_matching_frame]
  | cons f fs ih =>
    by_cases h : f = target
    · subst h
      have hred : find_matching_frame f (f :: fs) n = Except.ok n := by
        simp [find_matching_frame]
      rw [hred]
      constructor
      · intro h1
        rw [Except.ok.injEq] at h1
        exact ⟨0, by simp, by simp, by omega⟩
      · rintro ⟨i, hi, hprev, hj⟩
        match i with
        | 0 => subst hj; simp
        | i + 1 =>
          exact absurd List.getElem?_cons_zero (hprev 0 (Nat.succ_pos i))
    · simp only [find_matching_frame, if_neg h]
      rw [ih (n + 1)]
      constructor
      · rintro ⟨i, hi, hprev, hj⟩
        refine ⟨i + 1, by simpa using hi, ?_, by omega⟩
        intro k hk
        match k with
        | 0 => simpa using h
        | k + 1 =>
          simpa using hprev k (by omega)
      · rintro ⟨i, hi, hprev, hj⟩
        match i with
        | 0 => exact absurd (by simpa using hi) h
        | i + 1 =>
          exact ⟨i, by simpa using hi,
            fun k hk => by simpa using hprev (k + 1) (by omega), by omega⟩

/-- Helper for claim C4: when no remaining frame equals the target, the
scanning loop fails with the no-match error. -/
theorem find_matching_frame_error (target : Frame) (l : List Frame) :
    ∀ n, (∀ f ∈ l, f ≠ target) →
      find_matching_frame target l n = Except.error "Unable to find matching frame" := by
  induction l with
  | nil => intro n _; rfl
  | cons f fs ih =>
    intro n h
    simp only [find_matching_frame, if_neg (h f (List.mem_cons_self f fs))]
    exact ih (n + 1) fun g hg => h g (List.mem_cons_of_mem f hg)

/-- Claim C4: on a trimmed video with first frame t, the frame synchronizer
returns index j exactly when frame j of the reference equals t and no earlier
frame does (the smallest matching 0-based index), and it fails with the
no-match error when no reference frame equals t. -/
theorem frame_sync_first_match (original_video : List Frame) (t : Frame)
    (rest : List Frame) :
    (∀ j, get_first_matching_frame_index original_video (t :: rest) = Except.ok j ↔
      (original_video[j]? = some t ∧ ∀ k < j, original_video[k]? ≠ some t))
    ∧ ((∀ f ∈ original_video, f ≠ t) →
      get_first_matching_frame_index original_video (t :: rest)
        = Except.error "Unable to find matching frame") := by
  constructor
  · intro j
    show find_matching_frame t original_video 0 = Except.ok j ↔ _
    rw [find_matching_frame_ok_iff]
    constructor
    · rintro ⟨i, hi, hprev, hj⟩
      have : j = i := by omega
      subst this
      exact ⟨hi, hprev⟩
    · rintro ⟨hj, hprev⟩
      exact ⟨j, hj, hprev, by omega⟩
  · intro h
    exact find_matching_frame_error t original_video 0 h

/-- Claim C4 witness: in a two-frame reference video whose second frame is the
cut video's first frame, the synchronizer returns index 1. -/
theorem frame_sync_first_match_witness :
    get_first_matching_frame_index [[[1]], [[2]]] [[[2]]] = Except.ok 1 :=
  ((frame_sync_first_match [[[1]], [[2]]] [[2]] []).1 1).mpr ⟨by decide, by decide⟩

/-- Claim C9: the label check aborts with the assertion error exactly as soon
as some processed candidate has two or more label rows carrying its id, and
when every processed candidate has at most one matching label row the check
never fires and the label filter returns a result. -/
theorem label_filter_uniqueness (csv_df : List LabelRow) (cands : List Candidate) :
    ((∃ c ∈ cands,
        2 ≤ (csv_df.filter fun r => decide (r.waggle_id = c.waggle_id)).length) →
      label_filter csv_df cands = Except.error "AssertionError")
    ∧ ((∀ c ∈ cands,
        (csv_df.filter fun r => decide (r.waggle_id = c.waggle_id)).length ≤ 1) →
      ∃ kept, label_filter csv_df cands = Except.ok kept) := by
  induction cands with
  | nil =>
    constructor
    · rintro ⟨c, hc, -⟩
      exact absurd hc (List.not_mem_nil c)
    · exact fun _ => ⟨[], rfl⟩
  | cons c cs ih =>
    constructor
    · rintro ⟨c', hc', hlen⟩
      by_cases hfirst :
          (csv_df.filter fun r => decide (r.waggle_id = c.waggle_id)).length ≤ 1
      · have hc'' : c' ∈ cs := by
          rcases List.mem_cons.mp hc' with h | h
          · subst h; omega
          · exact h
        have herr := ih.1 ⟨c', hc'', hlen⟩
        simp only [label_filter, if_pos hfirst]
        cases hm : csv_df.filter fun r => decide (r.waggle_id = c.waggle_id) with
        | nil => exact herr
        | cons r rs =>
          by_cases htw : (is_tagged r && is_waggle r) = true <;>
            simp [htw, herr]
      · simp only [label_filter, if_neg hfirst]
    · intro hall
      have hc := hall c (List.mem_cons_self c cs)
      obtain ⟨kept, hkept⟩ := ih.2 fun c' h => hall c' (List.mem_cons_of_mem c h)
      simp only [label_filter, if_pos hc]
      cases hm : csv_df.filter fun r => decide (r.waggle_id = c.waggle_id) with
      | nil => exact ⟨kept, hkept⟩
      | cons r rs =>
        by_cases htw : (is_tagged r && is_waggle r) = true
        · exact ⟨c :: kept, by simp [htw, hkept]⟩
        · exact ⟨kept, by simp [htw, hkept]⟩

/-- Claim C9 witness: two label rows sharing the id of the single candidate
make the label check abort with the assertion error. -/
theorem label_filter_uniqueness_witness :
    label_filter
      [⟨"w1", "tagged", none, "waggle", none⟩, ⟨"w1", "untagged", none, "other", none⟩]
      [⟨"w1", 0, (0, 0)⟩] = Except.error "AssertionError" :=
  (label_filter_uniqueness
    [⟨"w1", "tagged", none, "waggle", none⟩, ⟨"w1", "untagged", none, "other", none⟩]
    [⟨"w1", 0, (0, 0)⟩]).1 (by decide)

/-- Helper for claim C10: the number of later sections produced by the split
equals the number of separator occurrences. -/
theorem splitOnChar_snd_length (sep : Char) (cs : List Char) :
    (splitOnChar sep cs).2.length = cs.count sep := by
  induction cs with
  | nil => rfl
  | cons c cs ih =>
    by_cases h : c = sep
    · subst h
      simp [splitOnChar, ih, List.count_cons]
    · simp [splitOnChar, h, ih, List.count_cons]

/-- Helper for claim C10: no section produced by the split contains the
separator. -/
theorem splitOnChar_no_sep (sep : Char) (cs : List Char) :
    sep ∉ (splitOnChar sep cs).1 ∧ ∀ p ∈ (splitOnChar sep cs).2, sep ∉ p := by
  induction cs with
  | nil => exact ⟨List.not_mem_nil sep, by simp [splitOnChar]⟩
  | cons c cs ih =>
    by_cases h : c = sep
    · subst h
      refine ⟨by simp [splitOnChar], ?_⟩
      intro p hp
      simp only [splitOnChar, if_pos rfl] at hp
      rcases List.mem_cons.mp hp with rfl | hp'
      · exact ih.1
      · exact ih.2 p hp'
    · constructor
      · simp only [splitOnChar, if_neg h]
        intro hmem
        rcases List.mem_cons.mp hmem with rfl | hmem'
        · exact h rfl
        · exact ih.1 hmem'
      · intro p hp
        simp only [splitOnChar, if_neg h] at hp
        exact ih.2 p hp

/-- Helper for claim C10: the output of the truncation contains at most one
dot. -/
theorem truncate_count_le_one (s : String) :
    (truncate_higher_precision_timestamp s).data.count '.' ≤ 1 := by
  by_cases h : 2 ≤ s.data.count '.'
  · have hlen : (splitOnChar '.' s.data).2.length = s.data.count '.' :=
      splitOnChar_snd_length '.' s.data
    cases hm : (splitOnChar '.' s.data).2 with
    | nil =>
      rw [hm] at hlen
      simp at hlen
      omega
    | cons s1 rest =>
      have h1 : (splitOnChar '.' s.data).1.count '.' = 0 :=
        List.count_eq_zero.mpr (splitOnChar_no_sep '.' s.data).1
      have h2 : s1.count '.' = 0 := by
        refine List.count_eq_zero.mpr ((splitOnChar_no_sep '.' s.data).2 s1 ?_)
        rw [hm]
        exact List.mem_cons_self s1 rest
      simp only [truncate_higher_precision_timestamp, if_pos h, hm]
      simp [List.count_append, List.count_cons, h1, h2]
  · simp only [truncate_higher_precision_timestamp, if_neg h]
    omega

/-- Claim C10: the timestamp truncation is idempotent, its output contains at
most one dot, and a string with at most one dot is returned unchanged. -/
theorem truncate_idempotent_single_dot (s : String) :
    truncate_higher_precision_timestamp (truncate_higher_precision_timestamp s)
      = truncate_higher_precision_timestamp s
    ∧ (truncate_higher_precision_timestamp s).data.count '.' ≤ 1
    ∧ (s.data.count '.' ≤ 1 → truncate_higher_precision_timestamp s = s) := by
  have hunchanged : ∀ u : String, u.data.count '.' ≤ 1 →
      truncate_higher_precision_timestamp u = u := by
    intro u hu
    simp only [truncate_higher_precision_timestamp]
    rw [if_neg (by omega)]
  exact ⟨hunchanged _ (truncate_count_le_one s), truncate_count_le_one s, hunchanged s⟩

/-- Claim C10 witness: a timestamp with a single fractional-second section is
returned unchanged. -/
theorem truncate_idempotent_single_dot_witness :
    truncate_higher_precision_timestamp "20240904T123435.952057Z" = "20240904T123435.952057Z" :=
  (truncate_idempotent_single_dot "20240904T123435.952057Z").2.2 (by decide)

/-- Helper for claim C6: when no remaining timestamp is at most the detection
timestamp, the selection loop keeps its accumulator. -/
theorem foldl_pick_no (t : ℚ) : ∀ (l : List ℚ) (acc : Option ℚ),
    (∀ x ∈ l, ¬ x ≤ t) →
    l.foldl (fun acc ts => if ts ≤ t then some ts else acc) acc = acc := by
  intro l
  induction l with
  | nil => intro acc _; rfl
  | cons a as ih =>
    intro acc h
    have hstep : (a :: as).foldl (fun acc ts => if ts ≤ t then some ts else acc) acc
        = as.foldl (fun acc ts => if ts ≤ t then some ts else acc)
            (if a ≤ t then some a else acc) := rfl
    rw [hstep, if_neg (h a (List.mem_cons_self a as))]
    exact ih acc fun x hx => h x (List.mem_cons_of_mem a hx)

/-- Helper for claim C6: on a list sorted ascending that contains some
timestamp at most the detection timestamp, the selection loop returns the
greatest such timestamp. -/
theorem foldl_pick_max (t : ℚ) : ∀ l : List ℚ, l.Sorted (· ≤ ·) →
    ∀ (acc : Option ℚ) (x : ℚ), x ∈ l → x ≤ t →
    ∃ m, l.foldl (fun acc ts => if ts ≤ t then some ts else acc) acc = some m
      ∧ m ∈ l ∧ m ≤ t ∧ ∀ y ∈ l, y ≤ t → y ≤ m := by
  intro l
  induction l with
  | nil => intro _ acc x hx; exact absurd hx (List.not_mem_nil x)
  | cons a as ih =>
    intro hs acc x hx hxt
    rw [List.sorted_cons] at hs
    obtain ⟨ha, hs'⟩ := hs
    have hstep : (a :: as).foldl (fun acc ts => if ts ≤ t then some ts else acc) acc
        = as.foldl (fun acc ts => if ts ≤ t then some ts else acc)
            (if a ≤ t then some a else acc) := rfl
    by_cases hat : a ≤ t
    · rw [hstep, if_pos hat]
      by_cases hex : ∃ y ∈ as, y ≤ t
      · obtain ⟨y, hy, hyt⟩ := hex
        obtain ⟨m, hm, hmem, hmt, hmax⟩ := ih hs' (some a) y hy hyt
        refine ⟨m, hm, List.mem_cons_of_mem a hmem, hmt, ?_⟩
        intro z hz hzt
        rcases List.mem_cons.mp hz with rfl | hz'
        · exact ha m hmem
        · exact hmax z hz' hzt
      · have hex' : ∀ x ∈ as, ¬ x ≤ t := fun x hx hxt => hex ⟨x, hx, hxt⟩
        rw [foldl_pick_no t as (some a) hex']
        refine ⟨a, rfl, List.mem_cons_self a as, hat, ?_⟩
        intro z hz hzt
        rcases List.mem_cons.mp hz with rfl | hz'
        · exact le_refl z
        · exact absurd hzt (hex' z hz')
    · have hx' : x ∈ as := by
        rcases List.mem_cons.mp hx with rfl | h
        · exact absurd hxt hat
        · exact h
      rw [hstep, if_neg hat]
      obtain ⟨m, hm, hmem, hmt, hmax⟩ := ih hs' acc x hx' hxt
      refine ⟨m, hm, List.mem_cons_of_mem a hmem, hmt, ?_⟩
      intro z hz hzt
      rcases List.mem_cons.mp hz with rfl | hz'
      · exact absurd hzt hat
      · exact hmax z hz' hzt

/-- Claim C6 (amended): the marker lookup returns none when no marker row
timestamp is at most the detection timestamp, and otherwise returns the rows
carrying the greatest timestamp at most the detection timestamp; however,
when the lookup yields none for a marker table, the dependent spatial
comparison is not skipped: is_matching_coordinates propagates the
InsufficientMarkers construction error, and at the orchestrator that error
aborts the event processing instead of counting as a filter miss. -/
theorem marker_lookup_max (t : ℚ) (df : List MarkerRow) :
    ((∀ r ∈ df, ¬ r.timestamp ≤ t) → get_marker_coordinates_by_timestamp t df = none)
    ∧ (∀ ts : ℚ, (∃ r ∈ df, r.timestamp = ts) → ts ≤ t →
        (∀ r ∈ df, r.timestamp ≤ t → r.timestamp ≤ ts) →
        get_marker_coordinates_by_timestamp t df
          = some ((df.filter fun r => decide (r.timestamp = ts)).map fun r => (r.x, r.y)))
    ∧ (∀ (c : Candidate) (row : ManualRow) (mhd mwdd : List MarkerRow)
        (tol : ℚ) (fp ur : Bool),
        get_marker_coordinates_by_timestamp c.timestamp_begin mhd = none →
        is_matching_coordinates c row mhd mwdd tol fp ur
          = Except.error "InsufficientMarkers")
    ∧ process_event 1 100 false false [[[0]]] [[[0]]] 0 1 [⟨"w3", 0, (0, 0)⟩]
        [⟨"w3", "tagged", none, "waggle", none⟩] [⟨3, 0, 0⟩] [⟨3, 0, 0⟩] ⟨0, 0, 0⟩
      = Except.error "InsufficientMarkers" := by
  have hmem : ∀ x : ℚ,
      x ∈ ((df.map fun r => r.timestamp).dedup).insertionSort (· ≤ ·)
        ↔ ∃ r ∈ df, r.timestamp = x := by
    intro x
    rw [List.mem_insertionSort, List.mem_dedup, List.mem_map]
  refine ⟨?_, ?_, ?_, ?_⟩
  · intro h
    have hno : ∀ x ∈ ((df.map fun r => r.timestamp).dedup).insertionSort (· ≤ ·), ¬ x ≤ t := by
      intro x hx hxt
      obtain ⟨r, hr, hrx⟩ := (hmem x).mp hx
      exact h r hr (hrx ▸ hxt)
    simp only [get_marker_coordinates_by_timestamp]
    rw [foldl_pick_no t _ none hno]
  · intro ts hex hts hmax
    have htsL : ts ∈ ((df.map fun r => r.timestamp).dedup).insertionSort (· ≤ ·) :=
      (hmem ts).mpr hex
    have hsorted : (((df.map fun r => r.timestamp).dedup).insertionSort (· ≤ ·)).Sorted (· ≤ ·) :=
      List.sorted_insertionSort (· ≤ ·) _
    obtain ⟨m, hm, hmemm, hmt, hmaxm⟩ := foldl_pick_max t _ hsorted none ts htsL hts
    have hmts : m = ts := by
      refine le_antisymm ?_ (hmaxm ts htsL hts)
      obtain ⟨r, hr, hrm⟩ := (hmem m).mp hmemm
      have hrt : r.timestamp ≤ t := hrm ▸ hmt
      have := hmax r hr hrt
      rw [hrm] at this
      exact this
    subst hmts
    simp only [get_marker_coordinates_by_timestamp]
    rw [hm]
  · intro c row mhd mwdd tol fp ur h
    simp only [is_matching_coordinates, h]
    rfl
  · norm_num [process_event, get_first_matching_frame_index, get_starting_frame,
      find_matching_frame, filtered_by_timestamp, label_filter, is_tagged, is_waggle,
      coordinate_filter_main, is_matching_coordinates,
      get_marker_coordinates_by_timestamp, CoordinateTransformer.make]

/-- Claim C6 witness: in a three-set marker table queried at time 5 the lookup
returns the markers of the set at time 4, the greatest timestamp at most 5. -/
theorem marker_lookup_max_witness :
    get_marker_coordinates_by_timestamp 5 [⟨1, 1, 2⟩, ⟨4, 3, 4⟩, ⟨7, 5, 6⟩]
      = some (([⟨1, 1, 2⟩, ⟨4, 3, 4⟩, ⟨7, 5, 6⟩].filter
          fun r : MarkerRow => decide (r.timestamp = 4)).map fun r => (r.x, r.y)) :=
  (marker_lookup_max 5 [⟨1, 1, 2⟩, ⟨4, 3, 4⟩, ⟨7, 5, 6⟩]).2.1 4
    (by decide) (by norm_num) (by decide)

/-- Claim C6 counterexample: a candidate at time 0 whose marker tables only
hold sets from time 2 on. The lookup yields none for both tables, yet the
spatial comparison is not skipped as a filter miss: it raises the
InsufficientMarkers failure. -/
theorem marker_lookup_skip_counterexample :
    is_matching_coordinates ⟨"w9", 0, (0, 0)⟩ ⟨0, 1, 1⟩
      [⟨2, 0, 0⟩, ⟨2, 1, 0⟩, ⟨2, 0, 1⟩] [⟨2, 0, 0⟩, ⟨2, 1, 0⟩, ⟨2, 0, 1⟩] 100 false false
      = Except.error "InsufficientMarkers" := by
  norm_num [is_matching_coordinates, get_marker_coordinates_by_timestamp,
    CoordinateTransformer.make]

/-- Claim C5 (amended): a frame-synchronization failure is caught at the
orchestrator boundary, the event yields no record and the remaining events
are still processed; but a transform-fitting failure during the spatial check
is not caught: it aborts the batch, as witnessed by a concrete run whose
first event reaches the spatial check with only two markers per table
(insufficient for the fit) and whose second event is never processed. -/
theorem orchestrator_error_policy (tt ct : ℚ) (fp ur : Bool)
    (original_video cut_video : List Frame) (vs fps : ℚ)
    (cands : List Candidate) (csv : List LabelRow) (mhd mwdd : List MarkerRow)
    (row : ManualRow) (rows : List ManualRow) :
    (∀ msg, get_first_matching_frame_index original_video cut_video = Except.error msg →
      process_event tt ct fp ur original_video cut_video vs fps cands csv mhd mwdd row
        = Except.ok none
      ∧ run_events tt ct fp ur original_video cut_video vs fps cands csv mhd mwdd
          (row :: rows)
        = match run_events tt ct fp ur original_video cut_video vs fps cands csv
            mhd mwdd rows with
          | Except.error e => Except.error e
          | Except.ok rs => Except.ok (none :: rs))
    ∧ run_events (1/2) 100 false false [[[5]]] [[[5]]] 0 15 [⟨"w7", 0, (7, 7)⟩]
        [⟨"w7", "tagged", none, "waggle", none⟩]
        [⟨0, 0, 0⟩, ⟨0, 1, 1⟩] [⟨0, 0, 0⟩, ⟨0, 1, 1⟩] [⟨0, 1, 1⟩, ⟨0, 2, 2⟩]
      = Except.error "InsufficientMarkers" := by
  constructor
  · intro msg h
    have hpe : process_event tt ct fp ur original_video cut_video vs fps cands csv
        mhd mwdd row = Except.ok none := by
      simp only [process_event, h]
    refine ⟨hpe, ?_⟩
    simp only [run_events, hpe]
  · norm_num [run_events, process_event, get_first_matching_frame_index,
      get_starting_frame, find_matching_frame, filtered_by_timestamp, label_filter,
      is_tagged, is_waggle, coordinate_filter_main, is_matching_coordinates,
      get_marker_coordinates_by_timestamp, CoordinateTransformer.make]

/-- Claim C5 witness: an empty cut video makes the frame synchronizer fail;
the orchestrator converts the failure into an event with no candidates. -/
theorem orchestrator_error_policy_witness :
    process_event 1 100 false false [] [] 0 1 [] [] [] [] ⟨0, 0, 0⟩ = Except.ok none :=
  ((orchestrator_error_policy 1 100 false false [] [] 0 1 [] [] [] [] ⟨0, 0, 0⟩ []).1
    "No frame in video" rfl).1

/-- Claim C5 counterexample: a transform-fitting failure (insufficient
markers: the tables hold a two-point marker set) during the first event's
spatial check aborts the whole batch run with an error instead of being
converted into an event without candidates, so the second event is lost. -/
theorem orchestrator_abort_counterexample :
    run_events 1 100 false false [[[0]]] [[[0]]] 0 1 [⟨"w2", 0, (0, 0)⟩]
      [⟨"w2", "tagged", none, "waggle", none⟩]
      [⟨0, 3, 3⟩, ⟨0, 4, 4⟩] [⟨0, 3, 3⟩, ⟨0, 4, 4⟩] [⟨0, 0, 0⟩, ⟨0, 0, 0⟩]
      = Except.error "InsufficientMarkers" := by
  norm_num [run_events, process_event, get_first_matching_frame_index,
    get_starting_frame, find_matching_frame, filtered_by_timestamp, label_filter,
    is_tagged, is_waggle, coordinate_filter_main, is_matching_coordinates,
    get_marker_coordinates_by_timestamp, CoordinateTransformer.make]

/-- Claim C7 (code bug): enabling undo_rotation has no effect on the pipeline,
because main never forwards the flag to is_matching_coordinates (whose
parameter stays at its default False); the component itself does apply
unrotate to the manual start position before the transform when its parameter
is set, and the flag is not vacuous: at a concrete input the two parameter
values give different verdicts. -/
theorem undo_rotation_flag_dropped :
    (∀ (tt ct : ℚ) (fp : Bool) (original_video cut_video : List Frame) (vs fps : ℚ)
        (cands : List Candidate) (csv : List LabelRow) (mhd mwdd : List MarkerRow)
        (rows : List ManualRow),
      run_events tt ct fp true original_video cut_video vs fps cands csv mhd mwdd rows
        = run_events tt ct fp false original_video cut_video vs fps cands csv mhd mwdd rows)
    ∧ (∀ (auto : Candidate) (manual : ManualRow) (mhd mwdd : List MarkerRow)
        (ct : ℚ) (fp : Bool),
      is_matching_coordinates auto manual mhd mwdd ct fp true
        = is_matching_coordinates auto
            ⟨manual.waggle_start_frames,
             (unrotate (manual.waggle_start_positions_x, manual.waggle_start_positions_y)).1,
             (unrotate (manual.waggle_start_positions_x, manual.waggle_start_positions_y)).2⟩
            mhd mwdd ct fp false)
    ∧ is_matching_coordinates ⟨"w1", 0, (10, 20)⟩ ⟨0, 10, 20⟩
        [⟨0, 0, 0⟩, ⟨0, 1, 0⟩, ⟨0, 0, 1⟩] [⟨0, 0, 0⟩, ⟨0, 1, 0⟩, ⟨0, 0, 1⟩] 0 false true
      = Except.ok false
    ∧ is_matching_coordinates ⟨"w1", 0, (10, 20)⟩ ⟨0, 10, 20⟩
        [⟨0, 0, 0⟩, ⟨0, 1, 0⟩, ⟨0, 0, 1⟩] [⟨0, 0, 0⟩, ⟨0, 1, 0⟩, ⟨0, 0, 1⟩] 0 false false
      = Except.ok true := by
  refine ⟨?_, ?_, ?_, ?_⟩
  · intro tt ct fp original_video cut_video vs fps cands csv mhd mwdd rows
    have hpe : ∀ row : ManualRow,
        process_event tt ct fp true original_video cut_video vs fps cands csv mhd mwdd row
        = process_event tt ct fp false original_video cut_video vs fps cands csv mhd mwdd
            row := fun _ => rfl
    induction rows with
    | nil => rfl
    | cons r rs ih => simp only [run_events, hpe, ih]
  · intro auto manual mhd mwdd ct fp
    rfl
  · norm_num [is_matching_coordinates, get_marker_coordinates_by_timestamp,
      CoordinateTransformer.make, fitAffine, det3,
      CoordinateTransformer.transform_coordinates, is_adjacent, unrotate,
      fix_padding_error, HD_CAM_RESOLUTION]
  · norm_num [is_matching_coordinates, get_marker_coordinates_by_timestamp,
      CoordinateTransformer.make, fitAffine, det3,
      CoordinateTransformer.transform_coordinates, is_adjacent, unrotate,
      fix_padding_error, HD_CAM_RESOLUTION]
